import Mathlib

/-!
Verification of the real-time call-screening pipeline against its
natural-language specification.

The JavaScript sources are embedded shallowly:

* `RoomManager` (src/services/roomManager.js) — room ↔ participant registry,
  modelled as an association list from room id to the (duplicate-free) list of
  participant ids, mirroring the `Map<string, Set<string>>` of the source.
* `TranscriptionService` (src/services/transcriptionService.js) — the
  streaming-session state machine: activity flag, reconnect counter, audio
  stream presence, chunk counters.  Wall-clock instants are passed in
  explicitly as naturals (milliseconds).
* `BedrockScamDetectionService` (src/services/bedrockscamdetectionservice.js,
  role-aware variant) — conversation window, speaker roles, analysis with
  defensive response validation, and rolling statistics.  The Bedrock
  network call and the JSON extraction (`responseText.match(/{...}/)` followed
  by `JSON.parse`) are modelled by handing `analyzeConversation` the outcome
  of that extraction: `Option RawAnalysis`, where `none` is a response from
  which no syntactically valid JSON object could be extracted.  JavaScript
  `x || default` field defaulting is modelled on `Option` fields (with the
  falsy empty string also defaulting, as in JS).
* The `join-room` pipeline-output handler of src/index.js — the Dispatcher's
  role-based routing of composite pipeline outputs to socket emissions.
-/

/-! ## RoomManager (src/services/roomManager.js) -/

/-- Registry state: the source's `Map<roomId, Set<userId>>`, as an association
list of room id to member list (member lists are kept duplicate-free, as a
`Set` is). -/
structure RoomManager where
  rooms : List (String × List String)
deriving Repr, DecidableEq

/-- Empty registry, as built by the `RoomManager` constructor. -/
def RoomManager.empty : RoomManager := ⟨[]⟩

/-- `Set.add`: insert a user if not already present. -/
def insertMember (us : List String) (userId : String) : List String :=
  if userId ∈ us then us else us ++ [userId]

/-- Update the association list for `addUser`: if the room exists, add the
user to its set; otherwise create the room with the user as sole member
(`roomManager.js` lines 6–12). -/
def addUserAux (rooms : List (String × List String)) (roomId userId : String) :
    List (String × List String) :=
  match rooms with
  | [] => [(roomId, [userId])]
  | (r, us) :: rest =>
    if r = roomId then (r, insertMember us userId) :: rest
    else (r, us) :: addUserAux rest roomId userId

/-- `RoomManager.addUser` (roomManager.js lines 6–12): create the room if
absent, then add the user to its set. -/
def RoomManager.addUser (rm : RoomManager) (roomId userId : String) : RoomManager :=
  ⟨addUserAux rm.rooms roomId userId⟩

/-- Update the association list for `removeUser`: delete the user from the
room's set and delete the room when the set becomes empty
(`roomManager.js` lines 14–25). -/
def removeUserAux (rooms : List (String × List String)) (roomId userId : String) :
    List (String × List String) :=
  match rooms with
  | [] => []
  | (r, us) :: rest =>
    if r = roomId then
      let us' := us.erase userId
      if us' = [] then rest else (r, us') :: rest
    else (r, us) :: removeUserAux rest roomId userId

/-- `RoomManager.removeUser` (roomManager.js lines 14–25). -/
def RoomManager.removeUser (rm : RoomManager) (roomId userId : String) : RoomManager :=
  ⟨removeUserAux rm.rooms roomId userId⟩

/-- `RoomManager.getUsers` (roomManager.js lines 27–29): members of a room,
`[]` when the room is absent. -/
def RoomManager.getUsers (rm : RoomManager) (roomId : String) : List String :=
  match rm.rooms.lookup roomId with
  | some us => us
  | none => []

/-- Whether a room id is present in the registry (`this.rooms.has(roomId)`). -/
def RoomManager.hasRoom (rm : RoomManager) (roomId : String) : Bool :=
  (rm.rooms.lookup roomId).isSome

/-- One registry operation: a join (`addUser`) or a leave (`removeUser`). -/
inductive RoomOp where
  | join (roomId userId : String)
  | leave (roomId userId : String)
deriving Repr, DecidableEq

/-- Apply one operation to the registry. -/
def RoomManager.applyOp (rm : RoomManager) : RoomOp → RoomManager
  | .join roomId userId => rm.addUser roomId userId
  | .leave roomId userId => rm.removeUser roomId userId

/-- Run a sequence of join/leave operations from a given registry state. -/
def RoomManager.run (rm : RoomManager) (ops : List RoomOp) : RoomManager :=
  ops.foldl RoomManager.applyOp rm

/-- Registry invariant: every room entry carries a non-empty member set. -/
def RoomsNonEmpty (rm : RoomManager) : Prop :=
  ∀ p ∈ rm.rooms, p.2 ≠ []

theorem insertMember_ne_nil (us : List String) (userId : String) :
    insertMember us userId ≠ [] := by
  unfold insertMember
  split
  · rename_i h
    intro hnil
    subst hnil
    simp at h
  · simp

theorem addUserAux_nonempty (rooms : List (String × List String))
    (roomId userId : String) (h : ∀ p ∈ rooms, p.2 ≠ []) :
    ∀ p ∈ addUserAux rooms roomId userId, p.2 ≠ [] := by
  induction rooms with
  | nil =>
    intro p hp
    simp only [addUserAux, List.mem_singleton] at hp
    subst hp
    simp
  | cons hd tl ih =>
    intro p hp
    obtain ⟨r, us⟩ := hd
    simp only [addUserAux] at hp
    split at hp
    · rcases List.mem_cons.mp hp with h1 | h2
      · subst h1
        exact insertMember_ne_nil us userId
      · exact h _ (List.mem_cons_of_mem _ h2)
    · rcases List.mem_cons.mp hp with h1 | h2
      · subst h1
        exact h _ (List.mem_cons_self _ _)
      · exact ih (fun q hq => h q (List.mem_cons_of_mem _ hq)) _ h2

theorem removeUserAux_nonempty (rooms : List (String × List String))
    (roomId userId : String) (h : ∀ p ∈ rooms, p.2 ≠ []) :
    ∀ p ∈ removeUserAux rooms roomId userId, p.2 ≠ [] := by
  induction rooms with
  | nil => intro p hp; simp [removeUserAux] at hp
  | cons hd tl ih =>
    intro p hp
    obtain ⟨r, us⟩ := hd
    simp only [removeUserAux] at hp
    split at hp
    · split at hp
      · exact h _ (List.mem_cons_of_mem _ hp)
      · rcases List.mem_cons.mp hp with h1 | h2
        · subst h1
          rename_i hne
          simpa using hne
        · exact h _ (List.mem_cons_of_mem _ h2)
    · rcases List.mem_cons.mp hp with h1 | h2
      · subst h1
        exact h _ (List.mem_cons_self _ _)
      · exact ih (fun q hq => h q (List.mem_cons_of_mem _ hq)) _ h2

theorem applyOp_preserves_nonempty (rm : RoomManager) (op : RoomOp)
    (h : RoomsNonEmpty rm) : RoomsNonEmpty (rm.applyOp op) := by
  cases op with
  | join roomId userId =>
    exact addUserAux_nonempty rm.rooms roomId userId h
  | leave roomId userId =>
    exact removeUserAux_nonempty rm.rooms roomId userId h

theorem run_preserves_nonempty (rm : RoomManager) (ops : List RoomOp)
    (h : RoomsNonEmpty rm) : RoomsNonEmpty (rm.run ops) := by
  induction ops generalizing rm with
  | nil => exact h
  | cons op rest ih =>
    exact ih (rm.applyOp op) (applyOp_preserves_nonempty rm op h)

theorem lookup_mem_of_isSome {rooms : List (String × List String)} {roomId : String}
    {us : List String} (h : rooms.lookup roomId = some us) : (roomId, us) ∈ rooms := by
  induction rooms with
  | nil => simp [List.lookup] at h
  | cons hd tl ih =>
    obtain ⟨r, vs⟩ := hd
    cases hbe : (roomId == r) with
    | true =>
      have hr : roomId = r := by simpa using hbe
      simp only [List.lookup, hbe] at h
      subst hr
      obtain rfl : vs = us := by simpa using h
      exact List.mem_cons_self _ _
    | false =>
      simp only [List.lookup, hbe] at h
      exact List.mem_cons_of_mem _ (ih h)

/-- C9: after any sequence of join (`addUser`) and leave (`removeUser`)
operations starting from the empty registry, a room id is present in the
registry if and only if its participant set is non-empty. -/
theorem c9_room_present_iff_nonempty (ops : List RoomOp) (roomId : String) :
    (RoomManager.empty.run ops).hasRoom roomId = true ↔
      (RoomManager.empty.run ops).getUsers roomId ≠ [] := by
  have hinv : RoomsNonEmpty (RoomManager.empty.run ops) :=
    run_preserves_nonempty RoomManager.empty ops (by intro p hp; simp [RoomManager.empty] at hp)
  constructor
  · intro hhas
    unfold RoomManager.hasRoom at hhas
    unfold RoomManager.getUsers
    cases hlk : (RoomManager.empty.run ops).rooms.lookup roomId with
    | none => rw [hlk] at hhas; simp at hhas
    | some us =>
      simp only
      exact hinv _ (lookup_mem_of_isSome hlk)
  · intro hne
    unfold RoomManager.getUsers at hne
    unfold RoomManager.hasRoom
    cases hlk : (RoomManager.empty.run ops).rooms.lookup roomId with
    | none => rw [hlk] at hne; simp at hne
    | some us => simp [hlk]

/-- Witness for C9: joining two users to room r1 and removing one leaves the
room present with a non-empty member list. -/
theorem c9_room_present_iff_nonempty_witness :
    (RoomManager.empty.run [.join "r1" "p1", .join "r1" "p2", .leave "r1" "p1"]).hasRoom "r1"
        = true ↔
      (RoomManager.empty.run [.join "r1" "p1", .join "r1" "p2", .leave "r1" "p1"]).getUsers "r1"
        ≠ [] :=
  c9_room_present_iff_nonempty [.join "r1" "p1", .join "r1" "p2", .leave "r1" "p1"] "r1"

/-! ## TranscriptionService (src/services/transcriptionService.js) -/

/-- Session state of one `TranscriptionService` instance.  `hasAudioStream`
and `streamDestroyed` model `this.audioStream` being non-null and
`this.audioStream.destroyed`; `inactivityTimerSet` models
`this.inactivityTimeout` being armed; times are milliseconds. -/
structure TranscriptionService where
  roomId : String
  userId : String
  isActive : Bool
  reconnectAttempts : Nat
  maxReconnectAttempts : Nat
  hasAudioStream : Bool
  streamDestroyed : Bool
  inactivityTimerSet : Bool
  lastAudioTime : Option Nat
  audioChunksReceived : Nat
  streamStartTime : Nat
  maxStreamDuration : Nat
  chunksWrittenToStream : Nat
deriving Repr, DecidableEq

/-- Constructor state (transcriptionService.js lines 9–27): inactive, zero
reconnect attempts, maximum 3, no audio stream, 4-hour maximum duration. -/
def tsNew (roomId userId : String) : TranscriptionService :=
  { roomId := roomId
    userId := userId
    isActive := false
    reconnectAttempts := 0
    maxReconnectAttempts := 3
    hasAudioStream := false
    streamDestroyed := false
    inactivityTimerSet := false
    lastAudioTime := none
    audioChunksReceived := 0
    streamStartTime := 0
    maxStreamDuration := 4 * 60 * 60 * 1000
    chunksWrittenToStream := 0 }

/-- State after a successful `start` at instant `now` (lines 58–64: activate,
reset the attempt counter, record the start time) followed by the stream
handshake of `initializeStream` (lines 110–177: fresh `PassThrough` stream,
attempt counter reset) and `startInactivityMonitor`. -/
def tsStart (roomId userId : String) (now : Nat) : TranscriptionService :=
  { tsNew roomId userId with
      isActive := true
      reconnectAttempts := 0
      streamStartTime := now
      hasAudioStream := true
      streamDestroyed := false
      inactivityTimerSet := true }

/-- `TranscriptionService.stop` (lines 372–408): deactivate, clear the
inactivity timer, end and destroy the audio stream, null the references. -/
def TranscriptionService.stop (s : TranscriptionService) : TranscriptionService :=
  { s with isActive := false
           inactivityTimerSet := false
           hasAudioStream := false
           streamDestroyed := true }

/-- `handleStreamError` (lines 304–323): when the session is inactive or the
attempt counter has reached the maximum, deactivate and give up (no delay);
otherwise increment the counter and back off for
`min(1000 · 2^attempts, 5000)` ms before re-initializing the stream.  Returns
the successor state and the backoff delay (`none` when no retry happens). -/
def handleStreamError (s : TranscriptionService) : TranscriptionService × Option Nat :=
  if !s.isActive || s.maxReconnectAttempts ≤ s.reconnectAttempts then
    ({ s with isActive := false }, none)
  else
    let attempts := s.reconnectAttempts + 1
    ({ s with reconnectAttempts := attempts },
      some (min (1000 * 2 ^ attempts) 5000))

/-- Session-level events: a recoverable stream failure (stream ended, transient
error, provider audio timeout — lines 279–300), a successful stream handshake
(line 177 resets the attempt counter over a fresh stream), a fatal error
(lines 198–207: deactivate without retrying), an explicit `stop`. -/
inductive TsEvent where
  | recoverableFailure
  | streamOpened
  | fatalStreamError
  | stopCall
deriving Repr, DecidableEq

/-- One step of the session state machine. -/
def tsStep (s : TranscriptionService) : TsEvent → TranscriptionService
  | .recoverableFailure => (handleStreamError s).1
  | .streamOpened =>
      { s with reconnectAttempts := 0, hasAudioStream := true, streamDestroyed := false }
  | .fatalStreamError => { s with isActive := false }
  | .stopCall => s.stop

/-- Run a sequence of session events. -/
def tsRun (s : TranscriptionService) (es : List TsEvent) : TranscriptionService :=
  es.foldl tsStep s

theorem handleStreamError_attempts_le (s : TranscriptionService)
    (h : s.reconnectAttempts ≤ s.maxReconnectAttempts) :
    (handleStreamError s).1.reconnectAttempts ≤ (handleStreamError s).1.maxReconnectAttempts := by
  unfold handleStreamError
  split
  · simpa using h
  · rename_i hc
    have hlt : s.reconnectAttempts < s.maxReconnectAttempts := by
      by_contra hge
      exact hc (by simp [Nat.le_of_not_lt hge])
    simpa using hlt

theorem tsStep_attempts_le (s : TranscriptionService) (e : TsEvent)
    (h : s.reconnectAttempts ≤ s.maxReconnectAttempts) :
    (tsStep s e).reconnectAttempts ≤ (tsStep s e).maxReconnectAttempts := by
  cases e with
  | recoverableFailure => exact handleStreamError_attempts_le s h
  | streamOpened => simp [tsStep]
  | fatalStreamError => simpa [tsStep] using h
  | stopCall => simpa [tsStep, TranscriptionService.stop] using h

theorem tsRun_attempts_le (s : TranscriptionService) (es : List TsEvent)
    (h : s.reconnectAttempts ≤ s.maxReconnectAttempts) :
    (tsRun s es).reconnectAttempts ≤ (tsRun s es).maxReconnectAttempts := by
  induction es generalizing s with
  | nil => exact h
  | cons e rest ih => exact ih (tsStep s e) (tsStep_attempts_le s e h)

/-- C7: from any state reachable from a started session, the reconnect-attempt
counter never exceeds the configured maximum; a recoverable failure with the
counter at the maximum deactivates the session (transition to Stopped) and
schedules no retry; a failure on an already-stopped session leaves the state
unchanged with no retry (so the transition to Stopped happens exactly once);
and every retry that is scheduled is delayed by
`min(1000 · 2^attempt, 5000)` ms for the incremented attempt counter. -/
theorem c7_reconnect_bounded (roomId userId : String) (now : Nat) (es : List TsEvent) :
    (tsRun (tsStart roomId userId now) es).reconnectAttempts ≤
        (tsRun (tsStart roomId userId now) es).maxReconnectAttempts ∧
    (∀ s : TranscriptionService, s.isActive = true →
      s.maxReconnectAttempts ≤ s.reconnectAttempts →
      handleStreamError s = ({ s with isActive := false }, none)) ∧
    (∀ s : TranscriptionService, s.isActive = false → handleStreamError s = (s, none)) ∧
    (∀ s : TranscriptionService, s.isActive = true →
      s.reconnectAttempts < s.maxReconnectAttempts →
      handleStreamError s =
        ({ s with reconnectAttempts := s.reconnectAttempts + 1 },
          some (min (1000 * 2 ^ (s.reconnectAttempts + 1)) 5000))) := by
  refine ⟨tsRun_attempts_le _ es (by simp [tsStart, tsNew]), ?_, ?_, ?_⟩
  · intro s hact hmax
    unfold handleStreamError
    rw [if_pos]
    simp [hact, hmax]
  · intro s hact
    unfold handleStreamError
    rw [if_pos]
    · cases s
      simp_all
    · simp [hact]
  · intro s hact hlt
    unfold handleStreamError
    rw [if_neg]
    simp [hact, hlt, not_le.mpr hlt]

/-- Witness for C7 at a concrete run: three consecutive recoverable failures
saturate the counter at the maximum (3); the next failure stops the session
with no retry; on the stopped session a further failure is a no-op. -/
theorem c7_reconnect_bounded_witness :
    (tsRun (tsStart "r1" "u1" 0)
        [.recoverableFailure, .recoverableFailure, .recoverableFailure]).reconnectAttempts ≤
      (tsRun (tsStart "r1" "u1" 0)
        [.recoverableFailure, .recoverableFailure, .recoverableFailure]).maxReconnectAttempts ∧
    handleStreamError
        (tsRun (tsStart "r1" "u1" 0)
          [.recoverableFailure, .recoverableFailure, .recoverableFailure]) =
      ({ tsRun (tsStart "r1" "u1" 0)
          [.recoverableFailure, .recoverableFailure, .recoverableFailure] with
            isActive := false }, none) := by
  have h := c7_reconnect_bounded "r1" "u1" 0
    [.recoverableFailure, .recoverableFailure, .recoverableFailure]
  exact ⟨h.1, h.2.1 _ (by decide) (by decide)⟩

/-- Result of one `sendAudio` call: the successor state, the boolean the call
returns, and how many chunks were written to the outbound audio stream (the
sink callback can only fire downstream of such writes). -/
structure SendAudioResult where
  state : TranscriptionService
  accepted : Bool
  chunksWritten : Nat
deriving Repr, DecidableEq

/-- `TranscriptionService.sendAudio` (lines 325–370) at instant `now`: reject
with `false` when the session is inactive or the stream is absent or
destroyed; otherwise record the audio time, bump the chunk counter, re-arm the
inactivity monitor, stop when the maximum stream duration is exceeded, and
otherwise write the chunk to the outbound stream and return `true`. -/
def sendAudio (s : TranscriptionService) (now : Nat) : SendAudioResult :=
  if !s.isActive || !s.hasAudioStream || s.streamDestroyed then
    ⟨s, false, 0⟩
  else
    let s1 := { s with lastAudioTime := some now
                       audioChunksReceived := s.audioChunksReceived + 1
                       inactivityTimerSet := true }
    if s1.maxStreamDuration < now - s1.streamStartTime then
      ⟨s1.stop, false, 0⟩
    else
      ⟨{ s1 with chunksWrittenToStream := s1.chunksWrittenToStream + 1 }, true, 1⟩

/-- C8: `sendAudio` on a Stopped session — inactive, or with the audio stream
absent or destroyed — returns `false`, leaves the session state exactly as it
was (no counter, timer, or stream mutation), and writes nothing to the
outbound stream, so no sink callback can result from the call. -/
theorem c8_sendAudio_stopped_noop (s : TranscriptionService) (now : Nat)
    (h : s.isActive = false ∨ s.hasAudioStream = false ∨ s.streamDestroyed = true) :
    sendAudio s now = ⟨s, false, 0⟩ := by
  unfold sendAudio
  rw [if_pos]
  rcases h with h | h | h <;> simp [h]

/-- Witness for C8: a freshly started then stopped session rejects audio with
no state change and no stream write. -/
theorem c8_sendAudio_stopped_noop_witness :
    sendAudio ((tsStart "r1" "u1" 0).stop) 5 = ⟨(tsStart "r1" "u1" 0).stop, false, 0⟩ :=
  c8_sendAudio_stopped_noop ((tsStart "r1" "u1" 0).stop) 5 (Or.inl (by decide))

/-! ## BedrockScamDetectionService (src/services/bedrockscamdetectionservice.js, role-aware variant) -/

/-- One conversation-window entry (`addToConversation`, lines 467–494):
speaker id, registered role, original and translated text, and a timestamp
(milliseconds, passed in for `new Date()`). -/
structure ConvMessage where
  speakerId : String
  role : String
  originalText : String
  translatedText : String
  timestamp : Nat
deriving Repr, DecidableEq

/-- Rolling statistics (`this.stats`, lines 401–410).  `averageRiskScore` is a
JS number holding the incremental mean; it is modelled as an exact rational. -/
structure BedrockStats where
  totalAnalyses : Nat
  highRiskDetections : Nat
  mediumRiskDetections : Nat
  lowRiskDetections : Nat
  averageRiskScore : ℚ
  callerMessagesAnalyzed : Nat
  userMessagesLogged : Nat
deriving Repr, DecidableEq

/-- Zeroed statistics, as set by the constructor. -/
def initialBedrockStats : BedrockStats :=
  { totalAnalyses := 0
    highRiskDetections := 0
    mediumRiskDetections := 0
    lowRiskDetections := 0
    averageRiskScore := 0
    callerMessagesAnalyzed := 0
    userMessagesLogged := 0 }

/-- Service state (constructor, lines 386–411): room, owner, owner role,
activity flag, conversation window with its capacity, speaker-role map
(`this.speakers : Map<socketId, role>`), analysis counter, statistics. -/
structure BedrockService where
  roomId : String
  userId : String
  userRole : String
  isActive : Bool
  conversationHistory : List ConvMessage
  maxHistoryLength : Nat
  analysisCount : Nat
  speakers : List (String × String)
  stats : BedrockStats
deriving Repr, DecidableEq

/-- Constructor state (lines 386–411): inactive, empty history, capacity 20,
no speakers registered, zeroed statistics. -/
def bedrockNew (roomId userId userRole : String) : BedrockService :=
  { roomId := roomId
    userId := userId
    userRole := userRole
    isActive := false
    conversationHistory := []
    maxHistoryLength := 20
    analysisCount := 0
    speakers := []
    stats := initialBedrockStats }

/-- `BedrockService.start` (lines 416–440): on success the client is created
and the service is activated. -/
def BedrockService.start (s : BedrockService) : BedrockService :=
  { s with isActive := true }

/-- `registerSpeaker` (lines 447–450): `Map.set`, overwriting any previous
role for the socket id. -/
def BedrockService.registerSpeaker (s : BedrockService) (socketId role : String) :
    BedrockService :=
  { s with speakers :=
      if (s.speakers.lookup socketId).isSome then
        s.speakers.map (fun p => if p.1 = socketId then (socketId, role) else p)
      else s.speakers ++ [(socketId, role)] }

/-- `getSpeakerRole` (lines 457–459): the registered role, `"unknown"` when
the speaker was never registered. -/
def BedrockService.getSpeakerRole (s : BedrockService) (socketId : String) : String :=
  (s.speakers.lookup socketId).getD "unknown"

/-- JavaScript `arr.slice(-n)`: the last `n` elements, except that
`slice(-0)` is the whole array. -/
def jsSliceLast (xs : List ConvMessage) (n : Nat) : List ConvMessage :=
  if n = 0 then xs else xs.drop (xs.length - n)

/-- `addToConversation` (lines 467–494): look up the speaker's role, append
the labelled message, bump the per-role message statistic, and evict the
oldest entries once the window exceeds `maxHistoryLength`
(`this.conversationHistory.slice(-this.maxHistoryLength)`). -/
def BedrockService.addToConversation (s : BedrockService)
    (originalText translatedText speakerId : String) (timestamp : Nat) : BedrockService :=
  let role := s.getSpeakerRole speakerId
  let message : ConvMessage :=
    { speakerId := speakerId
      role := role
      originalText := originalText
      translatedText := translatedText
      timestamp := timestamp }
  let hist := s.conversationHistory ++ [message]
  let stats :=
    if role = "caller" then
      { s.stats with callerMessagesAnalyzed := s.stats.callerMessagesAnalyzed + 1 }
    else if role = "user" then
      { s.stats with userMessagesLogged := s.stats.userMessagesLogged + 1 }
    else s.stats
  let hist' := if s.maxHistoryLength < hist.length then jsSliceLast hist s.maxHistoryLength else hist
  { s with conversationHistory := hist', stats := stats }

/-- `clearHistory` (lines 774–777). -/
def BedrockService.clearHistory (s : BedrockService) : BedrockService :=
  { s with conversationHistory := [] }

/-- The fields of the JSON object extracted from the model's free-form
response (lines 610–629).  Each field is optional: `none` models an absent
field.  JSON numbers are modelled as integers. -/
structure RawAnalysis where
  summary : Option String
  scamProbability : Option Int
  riskLevel : Option String
  concerns : Option (List String)
  reasoning : Option String
  recommendedAction : Option String
deriving Repr, DecidableEq

/-- The safe-default object substituted when no JSON object can be parsed out
of the response (lines 620–629). -/
def parseFailureDefault : RawAnalysis :=
  { summary := some "Unable to analyze conversation properly"
    scamProbability := some 0
    riskLevel := some "LOW"
    concerns := some []
    reasoning := some "Analysis parsing error"
    recommendedAction := some "Continue monitoring" }

/-- JavaScript `x || dflt` on a string field: an absent field and the falsy
empty string both default. -/
def jsStrOr (x : Option String) (dflt : String) : String :=
  match x with
  | some s => if s = "" then dflt else s
  | none => dflt

/-- `Math.min(100, Math.max(0, analysisResult.scamProbability || 0))`
(line 634): an absent score defaults to 0, then the value is clamped
into [0, 100]. -/
def clampScore (x : Option Int) : Int :=
  min 100 (max 0 (x.getD 0))

/-- The validated verdict (`validatedResult`, lines 632–644): every required
field independently defaulted, score clamped. -/
structure ScamVerdict where
  summary : String
  scamProbability : Int
  riskLevel : String
  concerns : List String
  reasoning : String
  recommendedAction : String
  duration : Nat
  analysisCount : Nat
  callerMessage : String
  roomId : String
deriving Repr, DecidableEq

/-- `updateStats` (lines 725–739): bump the total, bump exactly the counter
selected by the verdict's `riskLevel` string (anything that is neither
`"HIGH"` nor `"MEDIUM"` counts as low), and fold the verdict's score into the
incremental mean `mean' = (mean·(n−1) + score)/n`. -/
def updateStats (st : BedrockStats) (result : ScamVerdict) : BedrockStats :=
  let st1 := { st with totalAnalyses := st.totalAnalyses + 1 }
  let st2 :=
    if result.riskLevel = "HIGH" then
      { st1 with highRiskDetections := st1.highRiskDetections + 1 }
    else if result.riskLevel = "MEDIUM" then
      { st1 with mediumRiskDetections := st1.mediumRiskDetections + 1 }
    else
      { st1 with lowRiskDetections := st1.lowRiskDetections + 1 }
  let prevTotal := st2.averageRiskScore * ((st2.totalAnalyses : ℚ) - 1)
  { st2 with averageRiskScore :=
      (prevTotal + (result.scamProbability : ℚ)) / (st2.totalAnalyses : ℚ) }

/-- Outcome of one `analyzeConversation` call: the returned verdict (`none`
models the JS `null`), whether a Bedrock request was issued, and the
successor service state. -/
structure AnalyzeOutcome where
  result : Option ScamVerdict
  requestMade : Bool
  newState : BedrockService
deriving Repr, DecidableEq

/-- `analyzeConversation` (lines 503–667).  Returns `null` when the service is
inactive; returns `null` immediately — before any request — when the
speaker's registered role is not `"caller"`.  Otherwise the analysis counter
is bumped, the request is made, the response's JSON-extraction outcome
`parsed` (`none` = no valid JSON object) is defaulted to the safe object,
every field of the verdict is defaulted and the score clamped, and the
statistics are updated with the validated verdict.  `duration` stands for the
measured request latency. -/
def BedrockService.analyzeConversation (s : BedrockService)
    (latestTranslatedText speakerId : String) (parsed : Option RawAnalysis)
    (duration : Nat) : AnalyzeOutcome :=
  if s.isActive = false then ⟨none, false, s⟩
  else
    let speakerRole := s.getSpeakerRole speakerId
    if speakerRole ≠ "caller" then ⟨none, false, s⟩
    else
      let s1 := { s with analysisCount := s.analysisCount + 1 }
      let analysisResult := parsed.getD parseFailureDefault
      let validatedResult : ScamVerdict :=
        { summary := jsStrOr analysisResult.summary "No summary available"
          scamProbability := clampScore analysisResult.scamProbability
          riskLevel := jsStrOr analysisResult.riskLevel "LOW"
          concerns := analysisResult.concerns.getD []
          reasoning := jsStrOr analysisResult.reasoning "No reasoning provided"
          recommendedAction := jsStrOr analysisResult.recommendedAction "Continue monitoring"
          duration := duration
          analysisCount := s1.analysisCount
          callerMessage := latestTranslatedText
          roomId := s1.roomId }
      let s2 := { s1 with stats := updateStats s1.stats validatedResult }
      ⟨some validatedResult, true, s2⟩

/-- C2: whenever the speaker's registered role is anything other than
`"caller"`, `analyzeConversation` returns `null` immediately, regardless of
the message content and of what the capability would have answered: no
request is made and the service state is untouched. -/
theorem c2_analyze_null_for_nonqualifying_role (s : BedrockService)
    (latestTranslatedText speakerId : String) (parsed : Option RawAnalysis) (duration : Nat)
    (h : s.getSpeakerRole speakerId ≠ "caller") :
    s.analyzeConversation latestTranslatedText speakerId parsed duration = ⟨none, false, s⟩ := by
  unfold BedrockService.analyzeConversation
  split
  · rfl
  · rw [if_pos h]

/-- Witness for C2: a started service with the speaker registered as
`"user"` returns `null` on a message with blatant scam content, making no
request. -/
theorem c2_analyze_null_for_nonqualifying_role_witness :
    ((bedrockNew "r1" "p1" "user").start.registerSpeaker "p1" "user").analyzeConversation
        "send me your bank PIN now" "p1"
        (some { summary := some "s", scamProbability := some 99, riskLevel := some "HIGH",
                concerns := some ["pin"], reasoning := some "r",
                recommendedAction := some "hang up" }) 10 =
      ⟨none, false, (bedrockNew "r1" "p1" "user").start.registerSpeaker "p1" "user"⟩ :=
  c2_analyze_null_for_nonqualifying_role _ _ _ _ _ (by decide)

/-- One `addToConversation` input: texts, speaker, instant. -/
structure AddInput where
  originalText : String
  translatedText : String
  speakerId : String
  timestamp : Nat
deriving Repr, DecidableEq

/-- The window entry `addToConversation` builds for an input, given the
speaker-role map. -/
def mkConvMessage (speakers : List (String × String)) (m : AddInput) : ConvMessage :=
  { speakerId := m.speakerId
    role := (speakers.lookup m.speakerId).getD "unknown"
    originalText := m.originalText
    translatedText := m.translatedText
    timestamp := m.timestamp }

/-- Run a sequence of `addToConversation` calls. -/
def addAll (s : BedrockService) (msgs : List AddInput) : BedrockService :=
  msgs.foldl
    (fun t m => t.addToConversation m.originalText m.translatedText m.speakerId m.timestamp) s

theorem addToConversation_history (s : BedrockService) (m : AddInput)
    (hN : 1 ≤ s.maxHistoryLength)
    (hlen : s.conversationHistory.length ≤ s.maxHistoryLength) :
    (s.addToConversation m.originalText m.translatedText m.speakerId
        m.timestamp).conversationHistory =
      (s.conversationHistory ++ [mkConvMessage s.speakers m]).drop
        (s.conversationHistory.length + 1 - s.maxHistoryLength) := by
  unfold BedrockService.addToConversation
  simp only [mkConvMessage, BedrockService.getSpeakerRole, jsSliceLast,
    List.length_append, List.length_singleton]
  by_cases hc : s.maxHistoryLength < s.conversationHistory.length + 1
  · rw [if_pos hc, if_neg (by omega)]
  · rw [if_neg hc]
    have h0 : s.conversationHistory.length + 1 - s.maxHistoryLength = 0 := by omega
    rw [h0, List.drop_zero]

theorem addToConversation_speakers (s : BedrockService) (m : AddInput) :
    (s.addToConversation m.originalText m.translatedText m.speakerId m.timestamp).speakers =
      s.speakers := rfl

theorem addToConversation_max (s : BedrockService) (m : AddInput) :
    (s.addToConversation m.originalText m.translatedText m.speakerId
        m.timestamp).maxHistoryLength = s.maxHistoryLength := rfl

theorem addAll_history (s : BedrockService) (msgs : List AddInput)
    (hN : 1 ≤ s.maxHistoryLength)
    (hlen : s.conversationHistory.length ≤ s.maxHistoryLength) :
    (addAll s msgs).conversationHistory =
      (s.conversationHistory ++ msgs.map (mkConvMessage s.speakers)).drop
        (s.conversationHistory.length + msgs.length - s.maxHistoryLength) := by
  induction msgs generalizing s with
  | nil =>
    simp only [addAll, List.foldl_nil, List.map_nil, List.append_nil, List.length_nil,
      Nat.add_zero]
    have h0 : s.conversationHistory.length - s.maxHistoryLength = 0 := by omega
    rw [h0, List.drop_zero]
  | cons m rest ih =>
    have hstep := addToConversation_history s m hN hlen
    set s' := s.addToConversation m.originalText m.translatedText m.speakerId m.timestamp
      with hs'
    have hsp : s'.speakers = s.speakers := addToConversation_speakers s m
    have hmax : s'.maxHistoryLength = s.maxHistoryLength := addToConversation_max s m
    have hlenStep : s'.conversationHistory.length =
        s.conversationHistory.length + 1 -
          (s.conversationHistory.length + 1 - s.maxHistoryLength) := by
      rw [hstep, List.length_drop]
      simp only [List.length_append, List.length_singleton]
    have hlen' : s'.conversationHistory.length ≤ s'.maxHistoryLength := by
      rw [hmax, hlenStep]; omega
    have hrun : addAll s (m :: rest) = addAll s' rest := rfl
    rw [hrun, ih s' (by rw [hmax]; exact hN) hlen', hsp, hmax, hstep]
    rw [List.map_cons,
      show s.conversationHistory ++
            mkConvMessage s.speakers m :: rest.map (mkConvMessage s.speakers) =
          (s.conversationHistory ++ [mkConvMessage s.speakers m]) ++
            rest.map (mkConvMessage s.speakers) by
        rw [List.append_assoc]; rfl]
    have hk : s.conversationHistory.length + 1 - s.maxHistoryLength ≤
        (s.conversationHistory ++ [mkConvMessage s.speakers m]).length := by
      simp only [List.length_append, List.length_singleton]
      omega
    have hsplit : (s.conversationHistory ++ [mkConvMessage s.speakers m]).drop
          (s.conversationHistory.length + 1 - s.maxHistoryLength) ++
        rest.map (mkConvMessage s.speakers) =
        ((s.conversationHistory ++ [mkConvMessage s.speakers m]) ++
          rest.map (mkConvMessage s.speakers)).drop
          (s.conversationHistory.length + 1 - s.maxHistoryLength) := by
      conv_rhs => rw [List.drop_append_eq_append_drop]
      rw [Nat.sub_eq_zero_of_le hk, List.drop_zero]
    rw [hsplit, List.drop_drop]
    congr 1
    simp only [List.length_drop, List.length_append, List.length_singleton, List.length_cons,
      List.length_nil]
    omega

/-- C3: after any sequence of `addToConversation` calls on a freshly
constructed service (empty window, capacity `maxHistoryLength = 20`), the
conversation window holds at most 20 entries, and the retained entries are
exactly the 20 most recently added ones, in insertion order (FIFO eviction of
the oldest). -/
theorem c3_conversation_window_fifo (s : BedrockService) (msgs : List AddInput)
    (hempty : s.conversationHistory = []) (hcap : s.maxHistoryLength = 20) :
    (addAll s msgs).conversationHistory.length ≤ 20 ∧
    (addAll s msgs).conversationHistory =
      (msgs.map (mkConvMessage s.speakers)).drop (msgs.length - 20) := by
  have h := addAll_history s msgs (by omega) (by simp [hempty])
  rw [hempty, hcap] at h
  simp only [List.nil_append, List.length_nil, Nat.zero_add] at h
  refine ⟨?_, h⟩
  rw [h, List.length_drop, List.length_map]
  omega

/-- Witness for C3: after 25 insertions into a fresh service the window holds
the last 20 messages, oldest first. -/
theorem c3_conversation_window_fifo_witness :
    (addAll (bedrockNew "r1" "p1" "user")
        ((List.range 25).map (fun i => ⟨s!"o{i}", s!"t{i}", "p2", i⟩))).conversationHistory.length
        ≤ 20 ∧
    (addAll (bedrockNew "r1" "p1" "user")
        ((List.range 25).map (fun i => ⟨s!"o{i}", s!"t{i}", "p2", i⟩))).conversationHistory =
      (((List.range 25).map (fun i : Nat =>
          (⟨s!"o{i}", s!"t{i}", "p2", i⟩ : AddInput))).map
        (mkConvMessage (bedrockNew "r1" "p1" "user").speakers)).drop
        (((List.range 25).map (fun i : Nat =>
          (⟨s!"o{i}", s!"t{i}", "p2", i⟩ : AddInput))).length - 20) :=
  c3_conversation_window_fifo (bedrockNew "r1" "p1" "user")
    ((List.range 25).map (fun i => ⟨s!"o{i}", s!"t{i}", "p2", i⟩)) rfl rfl

/-- A started service for the protected user `"p1"`, with `"p1"` registered as
the user and the counterpart `"p2"` registered as the caller. -/
def svcWithCaller : BedrockService :=
  ((bedrockNew "r1" "p1" "user").start.registerSpeaker "p1" "user").registerSpeaker "p2" "caller"

/-- C4: when no syntactically valid JSON object can be extracted from the
analysis response (`parsed = none`), `analyzeConversation` still returns a
verdict — the safe default with score 0, risk level LOW and an empty concern
list — instead of propagating a parse exception (the embedded function is
total). -/
theorem c4_parse_failure_safe_default (s : BedrockService)
    (latestTranslatedText speakerId : String) (duration : Nat)
    (hact : s.isActive = true) (hrole : s.getSpeakerRole speakerId = "caller") :
    (s.analyzeConversation latestTranslatedText speakerId none duration).result.map
        (fun v => (v.scamProbability, v.riskLevel, v.concerns)) =
      some (0, "LOW", []) := by
  simp [BedrockService.analyzeConversation, hact, hrole, parseFailureDefault, clampScore,
    jsStrOr]

/-- Witness for C4: on the started service with the caller registered, an
unparseable response yields the safe default verdict. -/
theorem c4_parse_failure_safe_default_witness :
    (svcWithCaller.analyzeConversation "garbled response" "p2" none 10).result.map
        (fun v => (v.scamProbability, v.riskLevel, v.concerns)) =
      some (0, "LOW", []) :=
  c4_parse_failure_safe_default svcWithCaller "garbled response" "p2" 10 (by decide) (by decide)

theorem updateStats_average (st : BedrockStats) (v : ScamVerdict) :
    (updateStats st v).averageRiskScore =
      (st.averageRiskScore * (((st.totalAnalyses + 1 : ℕ) : ℚ) - 1) + (v.scamProbability : ℚ)) /
        ((st.totalAnalyses + 1 : ℕ) : ℚ) := by
  unfold updateStats
  by_cases h1 : v.riskLevel = "HIGH" <;> by_cases h2 : v.riskLevel = "MEDIUM" <;>
    simp [h1, h2]

/-- C6: the score recorded in the verdict is
`Math.min(100, Math.max(0, raw.scamProbability || 0))` — always in [0, 100],
with values above 100 clamped to 100 and negative or missing values becoming
0 — and it is this clamped value that enters the rolling mean of the
statistics. -/
theorem c6_score_clamped (s : BedrockService) (text speakerId : String)
    (raw : RawAnalysis) (duration : Nat)
    (hact : s.isActive = true) (hrole : s.getSpeakerRole speakerId = "caller") :
    ((s.analyzeConversation text speakerId (some raw) duration).result.map
        (fun v => v.scamProbability) = some (clampScore raw.scamProbability)) ∧
    (0 ≤ clampScore raw.scamProbability ∧ clampScore raw.scamProbability ≤ 100) ∧
    (∀ x : Int, raw.scamProbability = some x → 100 < x → clampScore raw.scamProbability = 100) ∧
    (∀ x : Int, raw.scamProbability = some x → x < 0 → clampScore raw.scamProbability = 0) ∧
    (raw.scamProbability = none → clampScore raw.scamProbability = 0) ∧
    ((s.analyzeConversation text speakerId (some raw) duration).newState.stats.averageRiskScore =
      (s.stats.averageRiskScore * (((s.stats.totalAnalyses + 1 : ℕ) : ℚ) - 1) +
          (clampScore raw.scamProbability : ℚ)) / ((s.stats.totalAnalyses + 1 : ℕ) : ℚ)) := by
  refine ⟨?_, ?_, ?_, ?_, ?_, ?_⟩
  · simp [BedrockService.analyzeConversation, hact, hrole]
  · cases hx : raw.scamProbability <;> simp [clampScore, hx]
  · intro x hx hgt
    simp [clampScore, hx]
    omega
  · intro x hx hlt
    simp [clampScore, hx]
    omega
  · intro hx
    simp [clampScore, hx]
  · have hstats : (s.analyzeConversation text speakerId (some raw) duration).newState.stats =
        updateStats s.stats
          { summary := jsStrOr raw.summary "No summary available"
            scamProbability := clampScore raw.scamProbability
            riskLevel := jsStrOr raw.riskLevel "LOW"
            concerns := raw.concerns.getD []
            reasoning := jsStrOr raw.reasoning "No reasoning provided"
            recommendedAction := jsStrOr raw.recommendedAction "Continue monitoring"
            duration := duration
            analysisCount := s.analysisCount + 1
            callerMessage := text
            roomId := s.roomId } := by
      simp [BedrockService.analyzeConversation, hact, hrole]
    rw [hstats, updateStats_average]

/-- Witness for C6: a response score of 150 is clamped to 100 on the started
service with the caller registered, and the rolling mean records 100. -/
theorem c6_score_clamped_witness :
    ((svcWithCaller.analyzeConversation "wire the money now" "p2"
        (some { summary := some "s", scamProbability := some 150, riskLevel := some "HIGH",
                concerns := some ["money"], reasoning := some "r",
                recommendedAction := some "hang up" }) 10).result.map
        (fun v => v.scamProbability) =
      some (clampScore (some 150))) ∧
    (0 ≤ clampScore (some (150 : Int)) ∧ clampScore (some (150 : Int)) ≤ 100) := by
  have h := c6_score_clamped svcWithCaller "wire the money now" "p2"
    { summary := some "s", scamProbability := some 150, riskLevel := some "HIGH",
      concerns := some ["money"], reasoning := some "r",
      recommendedAction := some "hang up" } 10 (by decide) (by decide)
  exact ⟨h.1, h.2.1⟩

/-- `HIGH_RISK_THRESHOLD` of the configuration (src/unnamed/part_004 line 28,
default 61). -/
def HIGH_RISK_THRESHOLD : Int := 61

/-- `MEDIUM_RISK_THRESHOLD` of the configuration (src/unnamed/part_004
line 29, default 31). -/
def MEDIUM_RISK_THRESHOLD : Int := 31

/-- Decision rubric as the specification words it, for comparison with the
code: scores below the medium threshold are LOW, scores from the medium
threshold up to the high threshold are MEDIUM, scores at or above the high
threshold are HIGH. -/
def specRubricLevel (medThreshold highThreshold score : Int) : String :=
  if highThreshold ≤ score then "HIGH"
  else if medThreshold ≤ score then "MEDIUM"
  else "LOW"

/-- C5 counterexample: a capability response with score 95 but risk level
string `"LOW"` produces a verdict whose riskLevel is `"LOW"` even though the
rubric at the configured thresholds classifies the clamped score 95 as HIGH:
the code copies the response's riskLevel field instead of deriving it from
the score. -/
theorem c5_riskLevel_counterexample :
    ((svcWithCaller.analyzeConversation "pay with gift cards today" "p2"
        (some { summary := some "s", scamProbability := some 95, riskLevel := some "LOW",
                concerns := some ["gift cards"], reasoning := some "r",
                recommendedAction := some "hang up" }) 10).result.map
        (fun v => (v.scamProbability, v.riskLevel)) = some (95, "LOW")) ∧
    specRubricLevel MEDIUM_RISK_THRESHOLD HIGH_RISK_THRESHOLD 95 = "HIGH" ∧
    ("LOW" : String) ≠ "HIGH" := by
  refine ⟨?_, by decide, by decide⟩
  decide

/-- C5 (amended): the verdict's riskLevel is copied verbatim from the
capability response's riskLevel field, defaulting to `"LOW"` when the field is
absent (or the falsy empty string); it is not derived from the (clamped)
score, and the configurable thresholds of the configuration are not consulted
by the analysis code. -/
theorem c5_riskLevel_from_response (s : BedrockService) (text speakerId : String)
    (raw : RawAnalysis) (duration : Nat)
    (hact : s.isActive = true) (hrole : s.getSpeakerRole speakerId = "caller") :
    (s.analyzeConversation text speakerId (some raw) duration).result.map
        (fun v => v.riskLevel) = some (jsStrOr raw.riskLevel "LOW") := by
  simp [BedrockService.analyzeConversation, hact, hrole]

/-- Witness for the amended C5: with an absent riskLevel field the verdict
defaults to LOW regardless of the score. -/
theorem c5_riskLevel_from_response_witness :
    (svcWithCaller.analyzeConversation "act now" "p2"
        (some { summary := some "s", scamProbability := some 88, riskLevel := none,
                concerns := some [], reasoning := some "r",
                recommendedAction := some "verify" }) 10).result.map
        (fun v => v.riskLevel) = some (jsStrOr none "LOW") :=
  c5_riskLevel_from_response svcWithCaller "act now" "p2"
    { summary := some "s", scamProbability := some 88, riskLevel := none,
      concerns := some [], reasoning := some "r", recommendedAction := some "verify" } 10
    (by decide) (by decide)

theorem updateStats_counts (st : BedrockStats) (v : ScamVerdict) :
    (updateStats st v).totalAnalyses = st.totalAnalyses + 1 ∧
    (updateStats st v).highRiskDetections + (updateStats st v).mediumRiskDetections +
        (updateStats st v).lowRiskDetections =
      st.highRiskDetections + st.mediumRiskDetections + st.lowRiskDetections + 1 := by
  unfold updateStats
  by_cases h1 : v.riskLevel = "HIGH" <;> by_cases h2 : v.riskLevel = "MEDIUM" <;>
    simp [h1, h2] <;> omega

theorem foldl_updateStats_partition (vs : List ScamVerdict) (st : BedrockStats)
    (h : st.highRiskDetections + st.mediumRiskDetections + st.lowRiskDetections =
      st.totalAnalyses) :
    (vs.foldl updateStats st).highRiskDetections + (vs.foldl updateStats st).mediumRiskDetections
        + (vs.foldl updateStats st).lowRiskDetections =
      (vs.foldl updateStats st).totalAnalyses := by
  induction vs generalizing st with
  | nil => exact h
  | cons v rest ih =>
    have hc := updateStats_counts st v
    exact ih (updateStats st v) (by omega)

/-- C10: after any sequence of completed analyses, the per-level counters
partition the total (their sum equals `totalAnalyses`); each `updateStats`
call bumps the total by one and exactly one per-level counter by one; and any
riskLevel string other than `"HIGH"` and `"MEDIUM"` is counted as a low-risk
detection. -/
theorem c10_stats_partition (vs : List ScamVerdict) (st : BedrockStats) (v : ScamVerdict) :
    ((vs.foldl updateStats initialBedrockStats).highRiskDetections +
        (vs.foldl updateStats initialBedrockStats).mediumRiskDetections +
        (vs.foldl updateStats initialBedrockStats).lowRiskDetections =
      (vs.foldl updateStats initialBedrockStats).totalAnalyses) ∧
    ((updateStats st v).totalAnalyses = st.totalAnalyses + 1) ∧
    ((updateStats st v).highRiskDetections + (updateStats st v).mediumRiskDetections +
        (updateStats st v).lowRiskDetections =
      st.highRiskDetections + st.mediumRiskDetections + st.lowRiskDetections + 1) ∧
    (v.riskLevel ≠ "HIGH" → v.riskLevel ≠ "MEDIUM" →
      (updateStats st v).lowRiskDetections = st.lowRiskDetections + 1 ∧
      (updateStats st v).highRiskDetections = st.highRiskDetections ∧
      (updateStats st v).mediumRiskDetections = st.mediumRiskDetections) := by
  refine ⟨foldl_updateStats_partition vs initialBedrockStats (by decide),
    (updateStats_counts st v).1, (updateStats_counts st v).2, ?_⟩
  intro h1 h2
  unfold updateStats
  simp [h1, h2]

/-- Witness for C10: a verdict with the arbitrary riskLevel string
`"BANANA"` is counted as a low-risk detection on zeroed statistics. -/
theorem c10_stats_partition_witness :
    (updateStats initialBedrockStats
        { summary := "s", scamProbability := 10, riskLevel := "BANANA", concerns := [],
          reasoning := "r", recommendedAction := "a", duration := 1, analysisCount := 1,
          callerMessage := "m", roomId := "r1" }).lowRiskDetections =
      initialBedrockStats.lowRiskDetections + 1 := by
  have h := c10_stats_partition []
    initialBedrockStats
    { summary := "s", scamProbability := 10, riskLevel := "BANANA", concerns := [],
      reasoning := "r", recommendedAction := "a", duration := 1, analysisCount := 1,
      callerMessage := "m", roomId := "r1" }
  exact (h.2.2.2 (by decide) (by decide)).1

/-! ## Dispatcher: the join-room pipeline-output handler (src/index.js, lines 117–192) -/

/-- Target of one socket.io emission: `io.to(roomId)` (a room broadcast,
received by every participant in the room) or `io.to(socketId)` (a single
socket). -/
inductive EmitTarget where
  | toRoom (roomId : String)
  | toSocket (socketId : String)
deriving Repr, DecidableEq

/-- One emitted event.  `carriesVerdict` records whether the event's payload
contains the risk verdict (`scamAnalysis` fields). -/
structure Emission where
  target : EmitTarget
  event : String
  carriesVerdict : Bool
deriving Repr, DecidableEq

/-- Composite pipeline output as received by the handler (the pipeline's
`emitPipelineOutput`, src/unnamed/part_001 lines 220–256). -/
structure PipelineOutput where
  transcriptionText : String
  transcriptionLanguage : String
  translationText : String
  translationLanguage : String
  scamAnalysis : Option ScamVerdict
  timestamp : Nat
deriving Repr, DecidableEq

/-- `Object.entries(roomRoles.get(roomId)).find(([_, role]) => role ===
"user")?.[0]` (index.js lines 151–152): the socket id of the first entry
registered with role `"user"`. -/
def findUserSocket (roomRoleMap : List (String × String)) : Option String :=
  (roomRoleMap.find? (fun p => p.2 == "user")).map (fun p => p.1)

/-- The pipeline-output callback installed by the `join-room` handler
(index.js lines 117–192): broadcast `transcript` and `translation` to the
room; when a verdict is present and the speaker's role is `"caller"`, look up
the room's user and send `scam-alert` to that socket only, plus a
`scam-detection-log` broadcast to the room carrying the analysis (when no
user is found the alert is dropped); finally broadcast `pipeline-output`,
whose spread payload carries the verdict whenever one is present. -/
def handlePipelineOutput (roomId speakerId : String)
    (roomRoleMap : List (String × String)) (out : PipelineOutput) : List Emission :=
  let speakerRole := (roomRoleMap.lookup speakerId).getD "unknown"
  [⟨.toRoom roomId, "transcript", false⟩, ⟨.toRoom roomId, "translation", false⟩] ++
  ((match out.scamAnalysis with
    | some _ =>
      if speakerRole = "caller" then
        match findUserSocket roomRoleMap with
        | some userSocketId =>
          [⟨.toSocket userSocketId, "scam-alert", true⟩,
           ⟨.toRoom roomId, "scam-detection-log", true⟩]
        | none => []
      else []
    | none => []) ++
  [⟨.toRoom roomId, "pipeline-output", out.scamAnalysis.isSome⟩])

/-- A HIGH-risk verdict about the caller's request for a bank PIN. -/
def exampleVerdict : ScamVerdict :=
  { summary := "caller asks for the bank PIN"
    scamProbability := 90
    riskLevel := "HIGH"
    concerns := ["bank details"]
    reasoning := "PIN request with urgency"
    recommendedAction := "hang up"
    duration := 10
    analysisCount := 1
    callerMessage := "send me your bank PIN now"
    roomId := "r1" }

/-- A composite pipeline output carrying `exampleVerdict`. -/
def examplePipelineOutput : PipelineOutput :=
  { transcriptionText := "send me your bank PIN now"
    transcriptionLanguage := "hi"
    translationText := "send me your bank PIN now"
    translationLanguage := "en"
    scamAnalysis := some exampleVerdict
    timestamp := 1000 }

/-- C1 counterexample: with `"p1"` the Protected user and `"p2"` the caller,
a caller output carrying a HIGH verdict makes the handler broadcast to the
whole room — hence also to the Counterpart `"p2"` — both the
`scam-detection-log` event and the `pipeline-output` event, each carrying the
verdict; so an event containing the verdict is broadcast to the room. -/
theorem c1_verdict_broadcast_counterexample :
    (⟨.toRoom "r1", "scam-detection-log", true⟩ : Emission) ∈
        handlePipelineOutput "r1" "p2" [("p1", "user"), ("p2", "caller")]
          examplePipelineOutput ∧
    (⟨.toRoom "r1", "pipeline-output", true⟩ : Emission) ∈
        handlePipelineOutput "r1" "p2" [("p1", "user"), ("p2", "caller")]
          examplePipelineOutput := by
  decide

/-- C1 (amended): the dedicated `scam-alert` event is delivered only to the
socket of the room's registered user (the Protected participant), never to
anyone else and never as a room broadcast; it is present exactly when a
verdict was produced, the speaker is the caller, and a user is registered;
when no user is registered the alert is dropped.  However, the verdict also
reaches the whole room through the `scam-detection-log` and `pipeline-output`
broadcasts. -/
theorem c1_alert_routing (roomId speakerId : String)
    (roomRoleMap : List (String × String)) (out : PipelineOutput) :
    (∀ e ∈ handlePipelineOutput roomId speakerId roomRoleMap out,
      e.event = "scam-alert" →
        ∃ u, findUserSocket roomRoleMap = some u ∧ e.target = .toSocket u ∧
          e.carriesVerdict = true) ∧
    (∀ v u, out.scamAnalysis = some v → roomRoleMap.lookup speakerId = some "caller" →
      findUserSocket roomRoleMap = some u →
        (⟨.toSocket u, "scam-alert", true⟩ : Emission) ∈
          handlePipelineOutput roomId speakerId roomRoleMap out) ∧
    (findUserSocket roomRoleMap = none →
      ∀ e ∈ handlePipelineOutput roomId speakerId roomRoleMap out,
        e.event ≠ "scam-alert") := by
  refine ⟨?_, ?_, ?_⟩
  · intro e he hev
    simp only [handlePipelineOutput] at he
    rcases List.mem_append.mp he with h1 | h23
    · simp only [List.mem_cons, List.not_mem_nil, or_false] at h1
      rcases h1 with rfl | rfl
      · simp at hev
      · simp at hev
    · rcases List.mem_append.mp h23 with h2 | h3
      · split at h2
        · split at h2
          · split at h2
            · rename_i u hfind
              simp only [List.mem_cons, List.not_mem_nil, or_false] at h2
              rcases h2 with rfl | rfl
              · exact ⟨u, hfind, rfl, rfl⟩
              · simp at hev
            · simp at h2
          · simp at h2
        · simp at h2
      · simp only [List.mem_singleton] at h3
        subst h3
        simp at hev
  · intro v u hsa hrole hfind
    simp only [handlePipelineOutput, hsa, hrole, Option.getD_some, if_pos, hfind]
    simp
  · intro hfind e he hev
    simp only [handlePipelineOutput] at he
    rcases List.mem_append.mp he with h1 | h23
    · simp only [List.mem_cons, List.not_mem_nil, or_false] at h1
      rcases h1 with rfl | rfl
      · simp at hev
      · simp at hev
    · rcases List.mem_append.mp h23 with h2 | h3
      · split at h2
        · split at h2
          · split at h2
            · rename_i u hfind'
              rw [hfind] at hfind'
              exact absurd hfind' (by simp)
            · simp at h2
          · simp at h2
        · simp at h2
      · simp only [List.mem_singleton] at h3
        subst h3
        simp at hev

/-- Witness for the amended C1: in the concrete two-party room the
`scam-alert` emission indeed targets the Protected user's socket `"p1"`. -/
theorem c1_alert_routing_witness :
    (⟨.toSocket "p1", "scam-alert", true⟩ : Emission) ∈
      handlePipelineOutput "r1" "p2" [("p1", "user"), ("p2", "caller")]
        examplePipelineOutput :=
  (c1_alert_routing "r1" "p2" [("p1", "user"), ("p2", "caller")]
      examplePipelineOutput).2.1 exampleVerdict "p1" rfl (by decide) (by decide)
